import Mathlib

/-!
Verification of the SockJS WebSocket transport adapter
(`src/transports/websocket.rs`) against its specification.

The adapter (`Websocket`) holds an optional session `Record` and a pair of
flags, translates abstract `Frame`s to the wire text encoding, buffers frames
until the registry signals `Ready`, decodes inbound client text into payloads
delivered to the session manager, and releases the `Record` on every
termination path.

Side effects on the websocket context (`ctx.text`, `ctx.close`, `ctx.stop`,
`ctx.state().do_send(...)`, `ctx.pong`) are modelled as an ordered list of
`Effect`s produced by each handler; `ctx.connected()` is an input boolean.
-/

/-- Modelled from the spec: the session lifecycle states (`session.rs` is not
part of the sources; spec §4.2 gives New → Running → Interrupted | Closed). -/
inductive SessionState where
  | New
  | Running
  | Interrupted
  | Closed
deriving DecidableEq, Repr

/-- Modelled from the spec: the close-code vocabulary (`protocol.rs` is not
part of the sources; spec §3 lists at least interrupted, go-away, internal
error and invalid payload, each a numeric code plus a human reason). -/
inductive CloseCode where
  | Interrupted
  | GoAway
  | InternalError
  | InvalidPayload
deriving DecidableEq, Repr

/-- Modelled from the spec: numeric code of each `CloseCode` (representative
values; the adapter only ever prints them). -/
def CloseCode.num : CloseCode → Nat
  | .Interrupted => 1002
  | .GoAway => 3000
  | .InternalError => 2010
  | .InvalidPayload => 2020

/-- Modelled from the spec: human reason of each `CloseCode`. -/
def CloseCode.reason : CloseCode → String
  | .Interrupted => "Connection interrupted"
  | .GoAway => "Go away!"
  | .InternalError => "Internal error"
  | .InvalidPayload => "Invalid payload"

/-- Modelled from the spec: the frame vocabulary (`protocol.rs` is not part of
the sources; spec §3: Heartbeat, Open, Message, MessageBatch — `MessageVec`
in the code, carrying an already-serialised JSON array — MessageBlob
(reserved), Close). -/
inductive Frame where
  | Heartbeat
  | Open
  | Message (s : String)
  | MessageVec (s : String)
  | MessageBlob (b : List Nat)
  | Close (c : CloseCode)
deriving DecidableEq, Repr

/-- Modelled from the spec: the per-session `Record` (`manager.rs` is not part
of the sources; spec §3: session id, lifecycle state, FIFO buffer of pending
frames). -/
structure Record where
  sid : String
  state : SessionState
  buffer : List Frame
deriving DecidableEq, Repr

/-- Modelled from the spec: `Record::close` marks the session closed
(spec §4.1: sending Close "marks the session closed"). -/
def Record.close (r : Record) : Record :=
  { r with state := SessionState.Closed }

/-- Modelled from the spec: `Record::interrupted` marks the session
interrupted (spec §4.2: abrupt disconnect transitions Running to
Interrupted). -/
def Record.interrupted (r : Record) : Record :=
  { r with state := SessionState.Interrupted }

/-- Modelled from the spec: `Record::add` enqueues a frame at the back of the
FIFO buffer (spec §3: "ordered buffer of not-yet-delivered Frames (FIFO,
insertion order significant)"). -/
def Record.add (r : Record) (f : Frame) : Record :=
  { r with buffer := r.buffer ++ [f] }

/-- Modelled from the spec: the transport flags (`transports/mod.rs` is not
part of the sources): READY is set once the backlog flush completed, RELEASE
marks the transport for release. -/
structure Flags where
  ready : Bool
  release : Bool
deriving DecidableEq, Repr

def Flags.empty : Flags := ⟨false, false⟩

def Flags.insertReady (fl : Flags) : Flags := { fl with ready := true }

def Flags.insertRelease (fl : Flags) : Flags := { fl with release := true }

/-- Modelled from the spec: result of a send attempt (`transports/mod.rs` is
not part of the sources): continue serving or stop the transport. -/
inductive SendResult where
  | Continue
  | Stop
deriving DecidableEq, Repr

/-- Modelled from the spec: an item of the per-session frame channel
(`context.rs` is not part of the sources): either a frame destined for the
session, or the registry's `Ready` signal ending the backlog flush phase. -/
inductive ChannelItem where
  | Frame (f : Frame)
  | Ready
deriving DecidableEq, Repr

/-- One observable side effect on the websocket context or the session
manager, in the order the adapter issues them. `panicked` records the
handler panicking (unwinding with no further effects: no close frame, no
release, no clean stop), as the byte range-index in the text handler does on
a non-character-boundary. -/
inductive Effect where
  | text (s : String)
  | pong (data : String)
  | closeWs (desc : String)
  | stop
  | releaseRec (r : Record)
  | deliver (sid : String) (payload : String)
  | addStream
  | panicked (msg : String)
deriving DecidableEq, Repr

/-- Hex digits of `n` (lowercase, no padding), as Rust prints `\u{...}`. -/
def natHexChars (n : Nat) : List Char :=
  Nat.toDigits 16 n

/-- Escape of one character as Rust's `Debug` formatting of a string does
(`escape_debug`): tab, carriage return, newline, backslash and double quote
get two-character escapes, other control characters a `\u{...}` escape. -/
def escapeDebugChar (c : Char) : List Char :=
  if c = '"' then ['\\', '"']
  else if c = '\\' then ['\\', '\\']
  else if c = '\n' then ['\\', 'n']
  else if c = '\r' then ['\\', 'r']
  else if c = '\t' then ['\\', 't']
  else if c.toNat < 0x20 then
    ['\\', 'u', Char.ofNat 123] ++ natHexChars c.toNat ++ [Char.ofNat 125]
  else [c]

/-- `format!("{:?}", s)` for a Rust string `s`: double quotes around the
escaped characters. -/
def rustDebug (s : String) : String :=
  String.mk ('"' :: (s.data.flatMap escapeDebugChar ++ ['"']))

/-- The transport adapter's mutable state: the optionally held `Record` and
the flags (`Websocket` struct, `websocket.rs` lines 16-25; the two phantom
type parameters carry no state). -/
structure Websocket where
  srec : Option Record
  flags : Flags
deriving DecidableEq, Repr

namespace Websocket

/-- `Websocket::send` (`websocket.rs` lines 51-80): encode the frame onto the
wire; `Close` additionally marks the record closed before the text is
written; `MessageBlob` emits nothing. Returns the updated record, the
context effects in order, and the `SendResult`. -/
def send (msg : Frame) (record : Record) : Record × List Effect × SendResult :=
  match msg with
  | .Heartbeat =>
      (record, [Effect.text "h"], SendResult.Continue)
  | .Message s =>
      (record, [Effect.text ("a[" ++ rustDebug s ++ "]")], SendResult.Continue)
  | .MessageVec s =>
      (record, [Effect.text ("a" ++ s)], SendResult.Continue)
  | .MessageBlob _ =>
      (record, [], SendResult.Continue)
  | .Open =>
      (record, [Effect.text "o"], SendResult.Continue)
  | .Close code =>
      (record.close,
       [Effect.text ("c[" ++ toString code.num ++ "," ++ rustDebug code.reason ++ "]\n")],
       SendResult.Continue)

/-- `Websocket::send_close` (`websocket.rs` lines 82-84): emit a close frame
text without touching any record (note: no trailing newline here). -/
def send_close (code : CloseCode) : List Effect :=
  [Effect.text ("c[" ++ toString code.num ++ "," ++ rustDebug code.reason ++ "]")]

/-- `Websocket::release` (`websocket.rs` lines 95-103): take the record if
still held, mark it interrupted when the connection is no longer open, send
`Release` to the manager, and stop the actor. -/
def release (ws : Websocket) (connected : Bool) : Websocket × List Effect :=
  match ws.srec with
  | some rec =>
      let rec1 := if connected then rec else rec.interrupted
      ({ ws with srec := none }, [Effect.releaseRec rec1, Effect.stop])
  | none => (ws, [Effect.stop])

/-- Loop body of `Websocket::send_buffered` (`websocket.rs` lines 145-158):
pop the front of the buffer and send it, stopping early on
`SendResult::Stop`. The first argument is the record's buffer; popping the
front is modelled by sending with the buffer already shortened, and `send`
never touches the buffer. -/
def sendBufGo : List Frame → Record → Record × List Effect × SendResult
  | [], record => (record, [], SendResult.Continue)
  | msg :: rest, record =>
      match send msg { record with buffer := rest } with
      | (r1, effs, SendResult.Stop) => (r1, effs, SendResult.Stop)
      | (r1, effs, SendResult.Continue) =>
          let out := sendBufGo rest r1
          (out.1, effs ++ out.2.1, out.2.2)

/-- `Websocket::send_buffered` (`websocket.rs` lines 145-158). -/
def send_buffered (record : Record) : Record × List Effect × SendResult :=
  sendBufGo record.buffer record

/-- `Websocket::handle_message` (`websocket.rs` lines 105-142): a frame is
sent directly when READY, buffered otherwise; `Ready` flushes the buffer,
then either releases (RELEASE flag) or sets READY. -/
def handle_message (ws : Websocket) (msg : ChannelItem) (connected : Bool) :
    Websocket × List Effect :=
  match msg with
  | ChannelItem.Frame f =>
      match ws.srec with
      | some rec =>
          if ws.flags.ready then
            match send f rec with
            | (r1, effs, res) =>
                if res = SendResult.Stop then
                  let ws1 : Websocket := { ws with srec := some r1 }
                  let out := ws1.release connected
                  (out.1, effs ++ out.2)
                else
                  ({ ws with srec := some r1 }, effs)
          else
            ({ ws with srec := some (rec.add f) }, [])
      | none => (ws, [])
  | ChannelItem.Ready =>
      let step : Websocket × List Effect :=
        match ws.srec with
        | some rec =>
            match send_buffered rec with
            | (r1, effs, res) =>
                if res = SendResult.Stop then
                  let ws1 : Websocket := { ws with srec := some r1 }
                  let out := ws1.release connected
                  (out.1, effs ++ out.2)
                else
                  ({ ws with srec := some r1 }, effs)
        | none => (ws, [])
      let ws1 := step.1
      if ws1.flags.release then
        let out := ws1.release connected
        (out.1, step.2 ++ out.2)
      else
        ({ ws1 with flags := ws1.flags.insertReady }, step.2)

/-- The continuation of `Acquire` inside `Websocket::init_transport`
(`websocket.rs` lines 169-210), dispatching on the acquired record's state:
Running flushes the buffer and attaches the frame stream; New sends `Open`
then flushes and attaches; Interrupted and Closed send the corresponding
terminal `Close` frame and release immediately without attaching. -/
def acquired (ws : Websocket) (rec : Record) : Websocket × List Effect :=
  match rec.state with
  | SessionState.Running =>
      match send_buffered rec with
      | (r1, effs, res) =>
          let fl := if res = SendResult.Stop then ws.flags.insertRelease else ws.flags
          ({ ws with flags := fl, srec := some r1 }, effs ++ [Effect.addStream])
  | SessionState.New =>
      let rec1 := { rec with state := SessionState.Running }
      match send Frame.Open rec1 with
      | (r2, effsO, resO) =>
          if resO = SendResult.Stop then
            ({ ws with flags := ws.flags.insertRelease, srec := some r2 },
             effsO ++ [Effect.addStream])
          else
            match send_buffered r2 with
            | (r3, effsB, resB) =>
                let fl := if resB = SendResult.Stop then ws.flags.insertRelease else ws.flags
                ({ ws with flags := fl, srec := some r3 },
                 effsO ++ effsB ++ [Effect.addStream])
  | SessionState.Interrupted =>
      match send (Frame.Close CloseCode.Interrupted) rec with
      | (r1, effs, _) => (ws, effs ++ [Effect.releaseRec r1])
  | SessionState.Closed =>
      match send (Frame.Close CloseCode.GoAway) rec with
      | (r1, effs, _) => (ws, effs ++ [Effect.releaseRec r1])

/-- `Handler<Broadcast>::handle` (`websocket.rs` lines 261-266): if a record
is held, send the broadcast frame immediately — no READY check, no
buffering. -/
def handleBroadcast (ws : Websocket) (f : Frame) : Websocket × List Effect :=
  match ws.srec with
  | some rec =>
      match send f rec with
      | (r1, effs, _) => ({ ws with srec := some r1 }, effs)
  | none => (ws, [])

/-- `Actor::stopping` (`websocket.rs` lines 233-239): on normal actor
shutdown, close and release a still-held record. -/
def stopping (ws : Websocket) : Websocket × List Effect :=
  match ws.srec with
  | some rec => ({ ws with srec := none }, [Effect.releaseRec rec.close])
  | none => (ws, [])

/-- `StreamHandler::error` (`websocket.rs` lines 274-280): on a websocket
protocol error, mark the record interrupted, release it and stop. -/
def streamError (ws : Websocket) : Websocket × List Effect :=
  match ws.srec with
  | some rec =>
      ({ ws with srec := none }, [Effect.releaseRec rec.interrupted, Effect.stop])
  | none => (ws, [Effect.stop])

end Websocket

/-- Run a list of channel items through `handle_message`, concatenating the
effects in order. -/
def runItems (ws : Websocket) (items : List ChannelItem) (connected : Bool) :
    Websocket × List Effect :=
  match items with
  | [] => (ws, [])
  | it :: rest =>
      let step := Websocket.handle_message ws it connected
      let out := runItems step.1 rest connected
      (out.1, step.2 ++ out.2)

/-- The wire text `send` emits for a frame (`none` for the reserved blob,
which emits nothing). -/
def wireText : Frame → Option String
  | Frame.Heartbeat => some "h"
  | Frame.Message s => some ("a[" ++ rustDebug s ++ "]")
  | Frame.MessageVec s => some ("a" ++ s)
  | Frame.MessageBlob _ => none
  | Frame.Open => some "o"
  | Frame.Close code =>
      some ("c[" ++ toString code.num ++ "," ++ rustDebug code.reason ++ "]\n")

/-- The `ctx.text` effects for a list of frames, in order. -/
def textEffs (fs : List Frame) : List Effect :=
  (fs.filterMap wireText).map Effect.text

/-- JSON whitespace as `serde_json` skips it. -/
def isJsonWs (c : Char) : Bool :=
  c = ' ' || c = '\t' || c = '\n' || c = '\r'

/-- Drop leading JSON whitespace. -/
def skipWs : List Char → List Char
  | [] => []
  | c :: rest => if isJsonWs c then skipWs rest else c :: rest

/-- Value of one hex digit. -/
def hexVal (c : Char) : Option Nat :=
  if 48 ≤ c.toNat ∧ c.toNat ≤ 57 then some (c.toNat - 48)
  else if 97 ≤ c.toNat ∧ c.toNat ≤ 102 then some (c.toNat - 87)
  else if 65 ≤ c.toNat ∧ c.toNat ≤ 70 then some (c.toNat - 55)
  else none

/-- Parse the body of a JSON string (the part after the opening quote) as
`serde_json` does: plain characters must not be control characters, the
escapes are the eight short ones plus `\uXXXX` with surrogate pairs.
Returns the decoded characters and the input remaining after the closing
quote. -/
def parseStringBody : List Char → Option (List Char × List Char)
  | [] => none
  | c :: rest =>
      if c = '"' then some ([], rest)
      else if c = '\\' then
        match rest with
        | [] => none
        | e :: rest2 =>
            if e = '"' then
              (parseStringBody rest2).map (fun p => ('"' :: p.1, p.2))
            else if e = '\\' then
              (parseStringBody rest2).map (fun p => ('\\' :: p.1, p.2))
            else if e = '/' then
              (parseStringBody rest2).map (fun p => ('/' :: p.1, p.2))
            else if e = 'b' then
              (parseStringBody rest2).map (fun p => (Char.ofNat 8 :: p.1, p.2))
            else if e = 'f' then
              (parseStringBody rest2).map (fun p => (Char.ofNat 12 :: p.1, p.2))
            else if e = 'n' then
              (parseStringBody rest2).map (fun p => ('\n' :: p.1, p.2))
            else if e = 'r' then
              (parseStringBody rest2).map (fun p => ('\r' :: p.1, p.2))
            else if e = 't' then
              (parseStringBody rest2).map (fun p => ('\t' :: p.1, p.2))
            else if e = 'u' then
              match rest2 with
              | h1 :: h2 :: h3 :: h4 :: rest3 =>
                  match hexVal h1, hexVal h2, hexVal h3, hexVal h4 with
                  | some a, some b, some c2, some d =>
                      let n := ((a * 16 + b) * 16 + c2) * 16 + d
                      if 0xD800 ≤ n ∧ n ≤ 0xDBFF then
                        match rest3 with
                        | b1 :: u1 :: g1 :: g2 :: g3 :: g4 :: rest4 =>
                            if b1 = '\\' ∧ u1 = 'u' then
                              match hexVal g1, hexVal g2, hexVal g3, hexVal g4 with
                              | some a2, some b2, some c3, some d2 =>
                                  let m := ((a2 * 16 + b2) * 16 + c3) * 16 + d2
                                  if 0xDC00 ≤ m ∧ m ≤ 0xDFFF then
                                    let cp := 0x10000 + (n - 0xD800) * 0x400 + (m - 0xDC00)
                                    (parseStringBody rest4).map
                                      (fun p => (Char.ofNat cp :: p.1, p.2))
                                  else none
                              | _, _, _, _ => none
                            else none
                        | _ => none
                      else if 0xDC00 ≤ n ∧ n ≤ 0xDFFF then none
                      else
                        (parseStringBody rest3).map
                          (fun p => (Char.ofNat n :: p.1, p.2))
                  | _, _, _, _ => none
              | _ => none
            else none
      else if c.toNat < 32 then none
      else (parseStringBody rest).map (fun p => (c :: p.1, p.2))

/-- `serde_json::from_slice::<String>`: leading whitespace, exactly one JSON
string, trailing whitespace, end of input. -/
def parseJsonString (input : List Char) : Option String :=
  match skipWs input with
  | c :: rest =>
      if c = '"' then
        match parseStringBody rest with
        | some (content, rem) =>
            if skipWs rem = [] then some (String.mk content) else none
        | none => none
      else none
  | [] => none

/-- The UTF-8 byte length of a character list, as Rust's `str::len`. -/
def utf8Len (cs : List Char) : Nat :=
  (cs.map Char.utf8Size).sum

/-- Dropping the final byte of the UTF-8 encoding (`text[1..text.len()-1]`
slices bytes): if the last character is a single byte this drops it;
otherwise byte index `len - 1` is not a character boundary and the `str`
range-index PANICS — `none` here stands for that panic, not for a parse
failure. -/
def byteDropLast (cs : List Char) : Option (List Char) :=
  match cs.getLast? with
  | some c => if c.utf8Size = 1 then some cs.dropLast else none
  | none => none

/-- The decoded payload of the bracket-stripped remainder
`text[1..text.len()-1]`: `some` exactly when the slice ends on a character
boundary (no panic) and parses as one JSON string. Only the `some` side
separates the outcomes; a `none` does not distinguish the boundary panic
from a JSON failure, so the handler below matches on `byteDropLast`
directly. -/
def parseInner (cs : List Char) : Option String :=
  match byteDropLast cs with
  | some inner => parseJsonString inner
  | none => none

namespace Websocket

/-- The malformed-JSON branch of `StreamHandler::handle`
(`websocket.rs` lines 296-307 and 312-323): close the websocket with an
invalid-payload reason, mark a still-held record interrupted and release it,
stop the connection. -/
def invalidPayloadStop (ws : Websocket) : Websocket × List Effect :=
  match ws.srec with
  | some rec =>
      ({ ws with srec := none },
       [Effect.closeWs "Broken JSON encoding",
        Effect.releaseRec rec.interrupted, Effect.stop])
  | none => (ws, [Effect.closeWs "Broken JSON encoding", Effect.stop])

/-- The successful-decode tail of `StreamHandler::handle`
(`websocket.rs` lines 327-332): forward the decoded payload to the manager
as a `SessionMessage` when a record is held. -/
def deliverPayload (ws : Websocket) (msg : String) : Websocket × List Effect :=
  match ws.srec with
  | some rec => (ws, [Effect.deliver rec.sid msg])
  | none => (ws, [])

/-- The `ws::Message::Text` arm of `StreamHandler::handle`
(`websocket.rs` lines 286-333): empty text is ignored; text starting with
`[` of byte length at most 2 is ignored; text starting with `[` has its
first and last byte stripped — a slice that PANICS when the last character
is multi-byte (byte `len - 1` is no char boundary), before any JSON parse —
and the remainder is parsed as one JSON string; other text is parsed whole
as one JSON string; the decoded payload is forwarded, a JSON failure
closes, releases interrupted and stops. -/
def handleText (ws : Websocket) (text : List Char) : Websocket × List Effect :=
  if text.isEmpty then (ws, [])
  else if text.head? = some '[' then
    if utf8Len text ≤ 2 then (ws, [])
    else
      match byteDropLast (text.drop 1) with
      | some inner =>
          match parseJsonString inner with
          | some msg => deliverPayload ws msg
          | none => invalidPayloadStop ws
      | none => (ws, [Effect.panicked "byte index is not a char boundary"])
  else
    match parseJsonString text with
    | some msg => deliverPayload ws msg
    | none => invalidPayloadStop ws

end Websocket

/-- Inbound websocket messages (`ws::Message`), as far as the adapter
distinguishes them. -/
inductive WsMessage where
  | Ping (data : String)
  | Text (text : List Char)
  | Binary (b : List Nat)
  | CloseMsg
  | Pong (data : String)
deriving DecidableEq, Repr

namespace Websocket

/-- `StreamHandler::handle` (`websocket.rs` lines 282-346): pings are ponged,
text is decoded, binary is logged and dropped, a peer close releases a
still-held record as closed and stops, anything else is ignored. -/
def streamHandle (ws : Websocket) (msg : WsMessage) : Websocket × List Effect :=
  match msg with
  | WsMessage.Ping d => (ws, [Effect.pong d])
  | WsMessage.Text t => handleText ws t
  | WsMessage.Binary _ => (ws, [])
  | WsMessage.CloseMsg =>
      match ws.srec with
      | some rec =>
          ({ ws with srec := none }, [Effect.releaseRec rec.close, Effect.stop])
      | none => (ws, [Effect.stop])
  | WsMessage.Pong _ => (ws, [])

end Websocket

/-- Follows the spec's words (§6 wire table and §4.1), for comparison with
the code's `send`: `h`, `o`, `a[payload]`, `a<json-array>`,
`c[code,"reason"]`, nothing for the reserved blob. -/
def specWireEncoding : Frame → Option String
  | Frame.Heartbeat => some "h"
  | Frame.Open => some "o"
  | Frame.Message s => some ("a[" ++ rustDebug s ++ "]")
  | Frame.MessageVec s => some ("a" ++ s)
  | Frame.MessageBlob _ => none
  | Frame.Close code =>
      some ("c[" ++ toString code.num ++ "," ++ rustDebug code.reason ++ "]")

/-- Elements of a JSON string array after the opening bracket: one string,
then either `,` and more elements or the closing bracket. Fueled by the
input length. -/
def specParseElems : Nat → List Char → Option (List String × List Char)
  | 0, _ => none
  | fuel + 1, cs =>
      match skipWs cs with
      | c :: rest =>
          if c = '"' then
            match parseStringBody rest with
            | some (content, rem) =>
                match skipWs rem with
                | d :: rem2 =>
                    if d = ',' then
                      match specParseElems fuel rem2 with
                      | some (more, rem3) => some (String.mk content :: more, rem3)
                      | none => none
                    else if d = ']' then some ([String.mk content], rem2)
                    else none
                | [] => none
            | none => none
          else none
      | [] => none

/-- Follows the spec's words (§6): decode the full inbound text as a JSON
array of string payloads. -/
def specDecodeStringArray (text : List Char) : Option (List String) :=
  match skipWs text with
  | c :: rest =>
      if c = '[' then
        match skipWs rest with
        | d :: rest2 =>
            if d = ']' then (if skipWs rest2 = [] then some [] else none)
            else
              match specParseElems (rest.length + 1) rest with
              | some (elems, rem) => if skipWs rem = [] then some elems else none
              | none => none
        | [] => none
      else none
  | [] => none

/-- The session state after `send` processes one frame: `Close` marks the
record closed, every other frame leaves the state alone. -/
def sendState (f : Frame) (s : SessionState) : SessionState :=
  match f with
  | Frame.Close _ => SessionState.Closed
  | _ => s

/-- The session state after sending a whole list of frames. -/
def drainState (s : SessionState) : List Frame → SessionState
  | [] => s
  | f :: rest => drainState (sendState f s) rest

lemma send_continue (f : Frame) (r : Record) :
    (Websocket.send f r).2.2 = SendResult.Continue := by
  cases f <;> rfl

lemma send_fst_sid (f : Frame) (r : Record) :
    ((Websocket.send f r).1).sid = r.sid := by
  cases f <;> rfl

lemma send_fst_buffer (f : Frame) (r : Record) :
    ((Websocket.send f r).1).buffer = r.buffer := by
  cases f <;> rfl

lemma send_fst_state (f : Frame) (r : Record) :
    ((Websocket.send f r).1).state = sendState f r.state := by
  cases f <;> rfl

lemma send_effs (f : Frame) (r : Record) :
    (Websocket.send f r).2.1 = ((wireText f).toList).map Effect.text := by
  cases f <;> rfl

lemma textEffs_append (xs ys : List Frame) :
    textEffs (xs ++ ys) = textEffs xs ++ textEffs ys := by
  simp [textEffs, List.filterMap_append]

lemma sendBufGo_spec (msgs : List Frame) : ∀ (r : Record), r.buffer = msgs →
    Websocket.sendBufGo msgs r
      = (⟨r.sid, drainState r.state msgs, []⟩, textEffs msgs, SendResult.Continue) := by
  induction msgs with
  | nil =>
      intro r h
      cases r with
      | mk sid st buf =>
          simp only at h
          subst h
          simp [Websocket.sendBufGo, drainState, textEffs]
  | cons m rest ih =>
      intro r h
      have hH := ih ⟨r.sid, r.state, rest⟩ rfl
      have hC := ih ⟨r.sid, SessionState.Closed, rest⟩ rfl
      simp only at hH hC
      cases m <;>
        simp [Websocket.sendBufGo, Websocket.send, Record.close, drainState, sendState,
              textEffs, wireText, hH, hC]

lemma send_buffered_spec (r : Record) :
    Websocket.send_buffered r
      = (⟨r.sid, drainState r.state r.buffer, []⟩, textEffs r.buffer, SendResult.Continue) :=
  sendBufGo_spec r.buffer r rfl

/-- C9: `send` returns `SendResult::Continue` for every frame and record, so
every `SendResult::Stop` branch — in `handle_message`, in `send_buffered`,
and in the Acquire continuation, including every path that sets
`Flags::RELEASE` — is unreachable; `send_buffered` always drains the buffer
to empty and returns Continue, the RELEASE flag is never newly set by the
Acquire continuation, and handling a live frame never emits a stop or a
release. -/
theorem C9_send_never_stops :
    (∀ (f : Frame) (r : Record), (Websocket.send f r).2.2 = SendResult.Continue)
    ∧ (∀ r : Record, (Websocket.send_buffered r).2.2 = SendResult.Continue
        ∧ ((Websocket.send_buffered r).1).buffer = [])
    ∧ (∀ (ws : Websocket) (r : Record),
        ((Websocket.acquired ws r).1).flags.release = ws.flags.release)
    ∧ (∀ (ws : Websocket) (f : Frame) (connected : Bool),
        ((Websocket.handle_message ws (ChannelItem.Frame f) connected).2).filter
          (fun e => match e with
            | Effect.stop => true
            | Effect.releaseRec _ => true
            | _ => false) = []) := by
  refine ⟨send_continue, ?_, ?_, ?_⟩
  · intro r
    rw [send_buffered_spec]
    exact ⟨rfl, rfl⟩
  · intro ws r
    cases hr : r.state <;>
      simp [Websocket.acquired, hr, send_buffered_spec, send_continue, Websocket.send]
  · intro ws f connected
    match hs : ws.srec with
    | none => simp [Websocket.handle_message, hs]
    | some rec =>
        by_cases hready : ws.flags.ready
        · simp only [Websocket.handle_message, hs, hready, if_true]
          rw [show (Websocket.send f rec) = ((Websocket.send f rec).1,
                (Websocket.send f rec).2.1, (Websocket.send f rec).2.2) from rfl,
              send_continue]
          simp [send_effs]
        · simp [Websocket.handle_message, hs, hready]

/-- C8 counterexample: `send` of `Close(GoAway)` emits the spec's
`c[code,"reason"]` encoding with an extra trailing newline appended, so the
claim that nothing is appended to any encoding fails. -/
theorem C8_counterexample :
    (Websocket.send (Frame.Close CloseCode.GoAway)
        ⟨"s", SessionState.Running, []⟩).2.1
      = [Effect.text ("c[3000,\"Go away!\"]" ++ "\n")]
    ∧ specWireEncoding (Frame.Close CloseCode.GoAway) = some "c[3000,\"Go away!\"]"
    ∧ ("c[3000,\"Go away!\"]" ++ "\n" : String) ≠ "c[3000,\"Go away!\"]" := by
  refine ⟨?_, by decide, by decide⟩
  decide

/-- C8 amended: `send` emits exactly the spec table's canonical encoding for
Heartbeat, Open, Message, batch and the reserved blob, and for `Close` emits
the spec's `c[code,"reason"]` encoding followed by one newline character. -/
theorem C8_wire_encodings :
    (∀ (f : Frame) (r : Record),
        (Websocket.send f r).2.1 = ((wireText f).toList).map Effect.text)
    ∧ (∀ f : Frame, wireText f =
        match f with
        | Frame.Close _ => (specWireEncoding f).map (fun t => t ++ "\n")
        | _ => specWireEncoding f) := by
  refine ⟨send_effs, ?_⟩
  intro f
  cases f <;> simp [wireText, specWireEncoding, String.ext_iff]

/-- C7: sending a `Close` frame through `send` marks the record closed (the
returned record is `r.close`, whatever the transmission effects), and an
Acquire on that record then observes the terminal state: it yields the
`Close(GoAway)` text and a release, never an Open frame. -/
theorem C7_close_marks_record :
    ∀ (c : CloseCode) (r : Record) (ws : Websocket),
      (Websocket.send (Frame.Close c) r).1 = r.close
      ∧ r.close.state = SessionState.Closed
      ∧ Websocket.acquired ws ((Websocket.send (Frame.Close c) r).1)
          = (ws, [Effect.text "c[3000,\"Go away!\"]\n", Effect.releaseRec r.close]) := by
  intro c r ws
  refine ⟨rfl, rfl, ?_⟩
  show Websocket.acquired ws r.close = _
  simp only [Websocket.acquired, Record.close, Websocket.send]
  have hstr : ("c[" ++ toString CloseCode.GoAway.num ++ "," ++
      rustDebug CloseCode.GoAway.reason ++ "]\n") = "c[3000,\"Go away!\"]\n" := by decide
  rw [hstr]
  rfl

lemma acquired_interrupted_eq (ws : Websocket) (r : Record)
    (hr : r.state = SessionState.Interrupted) :
    Websocket.acquired ws r
      = (ws, [Effect.text "c[1002,\"Connection interrupted\"]\n",
              Effect.releaseRec r.close]) := by
  simp only [Websocket.acquired, hr, Websocket.send]
  have hstr : ("c[" ++ toString CloseCode.Interrupted.num ++ "," ++
      rustDebug CloseCode.Interrupted.reason ++ "]\n")
      = "c[1002,\"Connection interrupted\"]\n" := by decide
  rw [hstr]
  rfl

lemma acquired_closed_eq (ws : Websocket) (r : Record)
    (hr : r.state = SessionState.Closed) :
    Websocket.acquired ws r
      = (ws, [Effect.text "c[3000,\"Go away!\"]\n", Effect.releaseRec r.close]) := by
  simp only [Websocket.acquired, hr, Websocket.send]
  have hstr : ("c[" ++ toString CloseCode.GoAway.num ++ "," ++
      rustDebug CloseCode.GoAway.reason ++ "]\n") = "c[3000,\"Go away!\"]\n" := by decide
  rw [hstr]
  rfl

/-- C1 counterexample: the first Acquire on an Interrupted session yields the
`Close(Interrupted)` frame but releases the record with state `Closed` (the
`Close` side effect transitions the state further), so the second Acquire on
the released record yields `Close(GoAway)`, a different close frame — the
two consecutive Acquires do not both yield `Close(Interrupted)`. -/
theorem C1_counterexample :
    Websocket.acquired ⟨none, Flags.empty⟩ ⟨"s", SessionState.Interrupted, []⟩
      = (⟨none, Flags.empty⟩,
         [Effect.text "c[1002,\"Connection interrupted\"]\n",
          Effect.releaseRec ⟨"s", SessionState.Closed, []⟩])
    ∧ Websocket.acquired ⟨none, Flags.empty⟩ ⟨"s", SessionState.Closed, []⟩
      = (⟨none, Flags.empty⟩,
         [Effect.text "c[3000,\"Go away!\"]\n",
          Effect.releaseRec ⟨"s", SessionState.Closed, []⟩])
    ∧ ("c[3000,\"Go away!\"]\n" : String) ≠ "c[1002,\"Connection interrupted\"]\n" := by
  refine ⟨?_, ?_, by decide⟩ <;> decide

/-- C1 amended: any Acquire on a terminal record yields a terminal Close
frame — `Close(Interrupted)` for an Interrupted session, `Close(GoAway)` for
a Closed one — never an Open frame, and releases the record back unattached;
the `Close` side effect marks the released record `Closed`, so an
Interrupted session transitions to `Closed` on its first further Acquire and
every later Acquire yields `Close(GoAway)`. -/
theorem C1_terminal_acquire :
    ∀ (ws : Websocket) (r : Record),
      (r.state = SessionState.Interrupted →
          Websocket.acquired ws r
            = (ws, [Effect.text "c[1002,\"Connection interrupted\"]\n",
                    Effect.releaseRec r.close]))
      ∧ (r.state = SessionState.Closed →
          Websocket.acquired ws r
            = (ws, [Effect.text "c[3000,\"Go away!\"]\n", Effect.releaseRec r.close]))
      ∧ r.close.state = SessionState.Closed
      ∧ Websocket.acquired ws r.close
          = (ws, [Effect.text "c[3000,\"Go away!\"]\n", Effect.releaseRec r.close]) := by
  intro ws r
  refine ⟨acquired_interrupted_eq ws r, acquired_closed_eq ws r, rfl, ?_⟩
  rw [acquired_closed_eq ws r.close rfl]
  rfl

/-- C1 witness: the amended theorem applied to a concrete Interrupted
record. -/
theorem C1_terminal_acquire_witness :
    Websocket.acquired ⟨none, Flags.empty⟩ ⟨"s", SessionState.Interrupted, []⟩
      = (⟨none, Flags.empty⟩,
         [Effect.text "c[1002,\"Connection interrupted\"]\n",
          Effect.releaseRec (Record.close ⟨"s", SessionState.Interrupted, []⟩)]) :=
  (C1_terminal_acquire ⟨none, Flags.empty⟩ ⟨"s", SessionState.Interrupted, []⟩).1 rfl

/-- C2 counterexample: the inbound text `["a","b"]` decodes, per the claim,
as a JSON array of the string payloads "a" and "b", yet the adapter forwards
nothing: it parses the bracket-stripped remainder as a single JSON string,
fails, closes with the invalid-payload reason, releases the record
interrupted and stops. -/
theorem C2_counterexample :
    specDecodeStringArray ("[\"a\",\"b\"]".data) = some ["a", "b"]
    ∧ Websocket.handleText
        ⟨some ⟨"abc123", SessionState.Running, []⟩, ⟨true, false⟩⟩
        ("[\"a\",\"b\"]".data)
      = (⟨none, ⟨true, false⟩⟩,
         [Effect.closeWs "Broken JSON encoding",
          Effect.releaseRec ⟨"abc123", SessionState.Interrupted, []⟩,
          Effect.stop]) := by
  constructor <;> decide

/-- C2 amended: the adapter decodes every inbound text frame as a single
JSON string payload — if the text begins with `[`, the surrounding bytes are
stripped and the remainder is parsed as one JSON string; otherwise the full
text is parsed as one JSON string — and on success that one payload is
forwarded via Deliver; inbound `["hello"]` on an attached session yields
Deliver of "hello". -/
theorem C2_single_payload :
    ∀ (ws : Websocket) (r : Record) (text : List Char) (msg : String),
      ws.srec = some r →
      ((text.head? = some '[' → ¬ (utf8Len text ≤ 2) →
          parseInner (text.drop 1) = some msg →
          Websocket.handleText ws text = (ws, [Effect.deliver r.sid msg]))
       ∧ (text.head? ≠ some '[' → text ≠ [] → parseJsonString text = some msg →
          Websocket.handleText ws text = (ws, [Effect.deliver r.sid msg]))) := by
  intro ws r text msg hrec
  constructor
  · intro hhead hlen hparse
    cases text with
    | nil => simp at hhead
    | cons c rest =>
        have hc : c = '[' := by
          simpa using hhead
        subst hc
        simp only [List.drop] at hparse
        cases hbd : byteDropLast rest with
        | none => simp [parseInner, hbd] at hparse
        | some inner =>
            have hps : parseJsonString inner = some msg := by
              simpa [parseInner, hbd] using hparse
            simp [Websocket.handleText, hlen, hbd, hps, Websocket.deliverPayload, hrec]
  · intro hhead hne hparse
    cases text with
    | nil => exact absurd rfl hne
    | cons c rest =>
        have hc : ¬ (c = '[') := by
          simpa using hhead
        simp [Websocket.handleText, hc, hparse, Websocket.deliverPayload, hrec]

/-- C2 witness: the amended theorem applied to the inbound text
`["hello"]` on an attached session. -/
theorem C2_single_payload_witness :
    Websocket.handleText
        ⟨some ⟨"abc123", SessionState.Running, []⟩, ⟨true, false⟩⟩
        ("[\"hello\"]".data)
      = (⟨some ⟨"abc123", SessionState.Running, []⟩, ⟨true, false⟩⟩,
         [Effect.deliver "abc123" "hello"]) :=
  (C2_single_payload ⟨some ⟨"abc123", SessionState.Running, []⟩, ⟨true, false⟩⟩
      ⟨"abc123", SessionState.Running, []⟩ ("[\"hello\"]".data) "hello" rfl).1
    (by decide) (by decide) (by decide)

/-- C10: inbound text starting with `[` of byte length at most 2 — in
particular the empty batch `[]` — is ignored exactly like empty text: the
adapter state is unchanged and no effect is produced. -/
theorem C10_short_bracket_ignored :
    ∀ (ws : Websocket) (text : List Char),
      (text.head? = some '[' → utf8Len text ≤ 2 →
          Websocket.handleText ws text = (ws, []))
      ∧ Websocket.handleText ws [] = (ws, []) := by
  intro ws text
  constructor
  · intro hhead hlen
    cases text with
    | nil => simp at hhead
    | cons c rest =>
        have hc : c = '[' := by
          simpa using hhead
        subst hc
        simp [Websocket.handleText, hlen]
  · simp [Websocket.handleText]

/-- C10 witness: the theorem applied to the empty batch `[]` on an attached
session. -/
theorem C10_short_bracket_ignored_witness :
    Websocket.handleText
        ⟨some ⟨"abc123", SessionState.Running, []⟩, ⟨true, false⟩⟩ ("[]".data)
      = (⟨some ⟨"abc123", SessionState.Running, []⟩, ⟨true, false⟩⟩, []) :=
  (C10_short_bracket_ignored
      ⟨some ⟨"abc123", SessionState.Running, []⟩, ⟨true, false⟩⟩ ("[]".data)).1
    (by decide) (by decide)

/-- C4: evaluation of the text handler at the failing input `["\u00e9` on an
attached session: byte 3 of the 4-byte text is not a character boundary, so
the byte slice `text[1..text.len()-1]` panics before any JSON parse — the
handler unwinds with no invalid-payload close frame, no Release, no stop
and no Deliver, instead of the recovery the claim (and the spec's
propagation policy) require for malformed inbound text. -/
theorem C4_panic_on_boundary :
    Websocket.handleText
        ⟨some ⟨"abc123", SessionState.Running, []⟩, ⟨true, false⟩⟩
        ("[\"\u00e9".data)
      = (⟨some ⟨"abc123", SessionState.Running, []⟩, ⟨true, false⟩⟩,
         [Effect.panicked "byte index is not a char boundary"]) := by
  decide

lemma runItems_buffering (fs : List Frame) : ∀ (r : Record) (c : Bool),
    runItems ⟨some r, ⟨false, false⟩⟩ (fs.map ChannelItem.Frame) c
      = (⟨some { r with buffer := r.buffer ++ fs }, ⟨false, false⟩⟩, []) := by
  induction fs with
  | nil => intro r c; simp [runItems]
  | cons f rest ih =>
      intro r c
      simp [runItems, Websocket.handle_message, Record.add, ih]

lemma runItems_live (fs : List Frame) : ∀ (r : Record) (c : Bool),
    runItems ⟨some r, ⟨true, false⟩⟩ (fs.map ChannelItem.Frame) c
      = (⟨some ⟨r.sid, drainState r.state fs, r.buffer⟩, ⟨true, false⟩⟩, textEffs fs) := by
  induction fs with
  | nil => intro r c; cases r; simp [runItems, drainState, textEffs]
  | cons f rest ih =>
      intro r c
      cases f <;>
        simp [runItems, Websocket.handle_message, Websocket.send, Record.close,
              drainState, sendState, textEffs, wireText, ih]

lemma handle_ready (r : Record) (c : Bool) :
    Websocket.handle_message ⟨some r, ⟨false, false⟩⟩ ChannelItem.Ready c
      = (⟨some ⟨r.sid, drainState r.state r.buffer, []⟩, ⟨true, false⟩⟩,
         textEffs r.buffer) := by
  simp [Websocket.handle_message, send_buffered_spec, Flags.insertReady]

lemma runItems_append (xs ys : List ChannelItem) : ∀ (ws : Websocket) (c : Bool),
    runItems ws (xs ++ ys) c
      = ((runItems (runItems ws xs c).1 ys c).1,
         (runItems ws xs c).2 ++ (runItems (runItems ws xs c).1 ys c).2) := by
  induction xs with
  | nil => intro ws c; simp [runItems]
  | cons x rest ih => intro ws c; simp [runItems, ih, List.append_assoc]

/-- C3: every frame delivered before the registry's Ready signal is enqueued
into the record's buffer and transmits nothing; upon Ready the buffered
frames (pre-existing backlog first) are transmitted in FIFO order, each
exactly once, before any frame arriving after Ready — the whole trace's
transmissions are exactly the encodings of backlog ++ pre-Ready frames ++
post-Ready frames, in that order. -/
theorem C3_fifo_flush :
    ∀ (r : Record) (fs1 fs2 : List Frame),
      runItems ⟨some r, ⟨false, false⟩⟩ (fs1.map ChannelItem.Frame) true
        = (⟨some { r with buffer := r.buffer ++ fs1 }, ⟨false, false⟩⟩, [])
      ∧ (runItems ⟨some r, ⟨false, false⟩⟩
            (fs1.map ChannelItem.Frame ++ ChannelItem.Ready :: fs2.map ChannelItem.Frame)
            true).2
        = textEffs (r.buffer ++ fs1 ++ fs2) := by
  intro r fs1 fs2
  refine ⟨runItems_buffering fs1 r true, ?_⟩
  rw [runItems_append, runItems_buffering fs1 r true]
  show ([] ++ (runItems _ (ChannelItem.Ready :: fs2.map ChannelItem.Frame) true).2) = _
  simp only [runItems, handle_ready, runItems_live, List.nil_append]
  simp [textEffs_append, List.append_assoc]

/-- C5 counterexample: a Broadcast frame arriving while the backlog flush has
not yet completed (READY unset, one frame still buffered) is transmitted
immediately, ahead of the buffered frame, which is only flushed by the later
Ready — the broadcast heartbeat precedes the buffered message on the wire. -/
theorem C5_counterexample :
    (Websocket.handleBroadcast
        ⟨some ⟨"a", SessionState.Running, [Frame.Message "x"]⟩, ⟨false, false⟩⟩
        Frame.Heartbeat).2
      ++ (Websocket.handle_message
            (Websocket.handleBroadcast
              ⟨some ⟨"a", SessionState.Running, [Frame.Message "x"]⟩, ⟨false, false⟩⟩
              Frame.Heartbeat).1
            ChannelItem.Ready true).2
      = [Effect.text "h", Effect.text "a[\"x\"]"] := by
  decide

/-- C5 amended: a Broadcast frame received while the adapter holds a record
is transmitted immediately and exactly once, bypassing the READY check; a
Broadcast arriving before the backlog flush has completed is therefore
transmitted ahead of the buffered frames, which still follow, complete and
in FIFO order, when Ready arrives. -/
theorem C5_broadcast_immediate :
    ∀ (ws : Websocket) (r : Record) (f : Frame),
      ws.srec = some r →
      (Websocket.handleBroadcast ws f).2 = textEffs [f]
      ∧ (Websocket.handleBroadcast ws f).1
          = { ws with srec := some (Websocket.send f r).1 }
      ∧ (ws.flags = ⟨false, false⟩ →
          (Websocket.handleBroadcast ws f).2
            ++ (Websocket.handle_message (Websocket.handleBroadcast ws f).1
                  ChannelItem.Ready true).2
          = textEffs [f] ++ textEffs r.buffer) := by
  intro ws r f hrec
  have hb : Websocket.handleBroadcast ws f
      = ({ ws with srec := some (Websocket.send f r).1 }, (Websocket.send f r).2.1) := by
    cases hsf : Websocket.send f r with
    | mk r1 rest =>
        simp [Websocket.handleBroadcast, hrec, hsf]
  have htf : List.map Effect.text (wireText f).toList
      = List.map Effect.text (List.filterMap wireText [f]) := by
    cases hwf : wireText f <;> simp [hwf, List.filterMap]
  refine ⟨?_, by rw [hb], ?_⟩
  · rw [hb, send_effs]
    simp [textEffs]
    exact htf
  · intro hflags
    cases ws with
    | mk s fl =>
        simp only at hflags
        subst hflags
        rw [hb]
        have := handle_ready ((Websocket.send f r).1) true
        simp only [send_effs, this, send_fst_buffer]
        simp [textEffs]
        exact htf

/-- C5 witness: the amended theorem applied to a broadcast heartbeat on an
adapter holding a record with a pending buffered message. -/
theorem C5_broadcast_immediate_witness :
    (Websocket.handleBroadcast
        ⟨some ⟨"a", SessionState.Running, [Frame.Message "x"]⟩, ⟨false, false⟩⟩
        Frame.Heartbeat).2
      = textEffs [Frame.Heartbeat] :=
  (C5_broadcast_immediate
      ⟨some ⟨"a", SessionState.Running, [Frame.Message "x"]⟩, ⟨false, false⟩⟩
      ⟨"a", SessionState.Running, [Frame.Message "x"]⟩ Frame.Heartbeat rfl).1

/-- C6: every termination path — explicit release, normal actor shutdown,
websocket protocol error, peer close — releases a still-held record exactly
once, classifying the disconnect: `release` keeps the record unchanged when
the connection is still open (merely detached) and marks it Interrupted
otherwise, `stopping` and a peer close mark it Closed, a protocol error
marks it Interrupted; with no record held, no release is sent, and a second
`release` right after a first one sends no further release. -/
theorem C6_release_paths :
    ∀ (ws : Websocket) (r : Record) (connected : Bool),
      (ws.srec = some r →
          Websocket.release ws connected
            = ({ ws with srec := none },
               [Effect.releaseRec (if connected then r else r.interrupted), Effect.stop])
          ∧ Websocket.stopping ws = ({ ws with srec := none }, [Effect.releaseRec r.close])
          ∧ Websocket.streamError ws
              = ({ ws with srec := none },
                 [Effect.releaseRec r.interrupted, Effect.stop])
          ∧ Websocket.streamHandle ws WsMessage.CloseMsg
              = ({ ws with srec := none }, [Effect.releaseRec r.close, Effect.stop]))
      ∧ (ws.srec = none →
          Websocket.release ws connected = (ws, [Effect.stop])
          ∧ Websocket.stopping ws = (ws, [])
          ∧ Websocket.streamError ws = (ws, [Effect.stop])
          ∧ Websocket.streamHandle ws WsMessage.CloseMsg = (ws, [Effect.stop]))
      ∧ (Websocket.release (Websocket.release ws connected).1 connected).2 = [Effect.stop]
      ∧ r.close.state = SessionState.Closed
      ∧ r.interrupted.state = SessionState.Interrupted := by
  intro ws r connected
  refine ⟨?_, ?_, ?_, rfl, rfl⟩
  · intro hrec
    refine ⟨?_, ?_, ?_, ?_⟩ <;>
      simp [Websocket.release, Websocket.stopping, Websocket.streamError,
            Websocket.streamHandle, hrec]
  · intro hrec
    refine ⟨?_, ?_, ?_, ?_⟩ <;>
      simp [Websocket.release, Websocket.stopping, Websocket.streamError,
            Websocket.streamHandle, hrec]
  · cases hrec : ws.srec <;>
      simp [Websocket.release, hrec]

/-- C6 witness: the theorem applied to an adapter holding a concrete record,
with the connection no longer open. -/
theorem C6_release_paths_witness :
    Websocket.release ⟨some ⟨"s", SessionState.Running, []⟩, ⟨true, false⟩⟩ false
      = (⟨none, ⟨true, false⟩⟩,
         [Effect.releaseRec
            (if false then (⟨"s", SessionState.Running, []⟩ : Record)
             else Record.interrupted ⟨"s", SessionState.Running, []⟩),
          Effect.stop]) :=
  ((C6_release_paths ⟨some ⟨"s", SessionState.Running, []⟩, ⟨true, false⟩⟩
      ⟨"s", SessionState.Running, []⟩ false).1 rfl).1
